import Mathlib

/-!
Verification development for the K8s Health Monitor service (`main.py`).

The Python source is shallowly embedded: pure computations become Lean
functions; interactions with the outside world (file system, environment
variables, the Kubernetes API client, the outbound HTTP POST) are modelled
by an explicit `World` record of behaviours plus an ordered trace of
`Effect`s that a run performs.  Python exceptions are modelled as `Except`
or `Option String` values carrying the exception detail string.
-/

namespace K8sMonitor

/-! Section 1: definitions (the embedding of the program). -/

/-- Lookup in a Python dict modelled as an ordered association list. -/
def dictGet : List (String × String) → String → Option String
  | [], _ => none
  | p :: m, k => if p.1 = k then some p.2 else dictGet m k

/-- Python dict assignment `d[k] = v`: overwrite the entry in place when the
key is present (keys are unique by construction), otherwise append. -/
def dictInsert : List (String × String) → String → String → List (String × String)
  | [], k, v => [(k, v)]
  | p :: m, k, v => if p.1 = k then (k, v) :: m else p :: dictInsert m k v

/-- Pydantic model `Setting` (main.py 294-298). -/
structure Setting where
  label : String
  type : String
  required : Bool
  default : String
  deriving DecidableEq, Repr

/-- Pydantic model `MonitorPayload` (main.py 300-303). -/
structure MonitorPayload where
  channel_id : String
  return_url : String
  settings : List Setting
  deriving DecidableEq, Repr

/-- Settings flattening `{s.label: s.default for s in payload.settings}`
(main.py line 483): a Python dict comprehension inserts entries in order, a
later binding of the same key overwriting the earlier value. -/
def flattenSettings (ss : List Setting) : List (String × String) :=
  ss.foldl (fun settings s => dictInsert settings s.label s.default) []

/-- Python `str.lower()` on the character sequence (the inputs of interest
are ASCII, where `Char.toLower` agrees with Python). -/
def lowerStr (s : String) : String := ⟨s.data.map Char.toLower⟩

/-- Python `pat in s` on strings: substring containment. -/
def strContains (s pat : String) : Bool :=
  decide (pat.toList <:+: s.toList)

/-- The filter `[log for log in logs if "error" in log.lower()]`
(main.py line 467). -/
def error_logs_of (logs : List String) : List String :=
  logs.filter (fun log => strContains (lowerStr log) "error")

deriving instance DecidableEq for Except

/-- A pod as far as the code uses it: `pod.metadata.name`. -/
structure Pod where
  name : String
  deriving DecidableEq, Repr

/-- The kubernetes client collaborator, modelled at its interface boundary:
the result of `v1.list_namespaced_pod(namespace)` and, per pod name, the
result of `v1.read_namespaced_pod_log(pod_name, namespace)`.  An
`ApiException` is modelled as `Except.error` carrying its `str(e)` detail. -/
structure Cluster where
  listPods : Except String (List Pod)
  readLog : String → Except String String

/-- One entry of `error_reports` in `fetch_error_logs` (main.py 469-473). -/
structure ErrorReport where
  pod_name : String
  «namespace» : String
  logs : List String
  deriving DecidableEq, Repr

/-- The Telex webhook body built in `monitor_task` (main.py 530-535). -/
structure TelexData where
  message : String
  username : String
  event_name : String
  status : String
  deriving DecidableEq, Repr

/-- Observable side effects of a monitoring run, in execution order. -/
inductive Effect where
  | writeFile (path : String) (content : String)
  | setEnv (var : String) (value : String)
  | loadKube (path : String)
  | listPods («namespace» : String)
  | readLog (pod_name : String) («namespace» : String)
  | post (url : String) (data : TelexData)
  deriving DecidableEq, Repr

/-- Helper for Python `s.split(sep)` with a one-character separator. -/
def splitOnChar (sep : Char) : List Char → List (List Char)
  | [] => [[]]
  | c :: cs =>
    match splitOnChar sep cs with
    | [] => [[]]
    | s :: rest => if c = sep then [] :: s :: rest else (c :: s) :: rest

/-- Python `s.split("\n")`: split on every newline character, yielding
`[""]` for the empty string and a trailing `""` for a trailing newline. -/
def splitNewline (s : String) : List String :=
  (splitOnChar '\n' s.data).map String.mk

/-- The per-pod body of the loop in `fetch_error_logs` (main.py 455-473):
read the pod's logs, replacing a failed read (`ApiException`) by the single
synthetic line `"Failed to fetch logs: {str(e)}"`; keep the lines containing
`"error"` (case-insensitively); contribute a report iff any line was kept. -/
def reportOf (c : Cluster) («namespace» : String) (pod : Pod) : Option ErrorReport :=
  let logs := match c.readLog pod.name with
    | .ok pod_logs => splitNewline pod_logs
    | .error e => ["Failed to fetch logs: " ++ e]
  let error_logs := error_logs_of logs
  if error_logs.isEmpty then none
  else some { pod_name := pod.name, «namespace» := «namespace», logs := error_logs }

/-- Embedding of `fetch_error_logs` (main.py 448-477).  A failure of the
listing call itself maps to
`HTTPException(500, "Failed to fetch pod logs: ...")`; the loop appends a
report per pod whose kept lines are non-empty. -/
def fetch_error_logs (c : Cluster) («namespace» : String) :
    List Effect × Except String (List ErrorReport) :=
  match c.listPods with
  | .error e =>
    ([Effect.listPods «namespace»], .error ("Failed to fetch pod logs: " ++ e))
  | .ok pods =>
    (Effect.listPods «namespace» :: pods.map (fun pod => Effect.readLog pod.name «namespace»),
     .ok (pods.foldl (fun error_reports pod =>
        match reportOf c «namespace» pod with
        | none => error_reports
        | some r => error_reports ++ [r]) []))

/-!
Section 1b: kubeconfig rendering (`generate_kubeconfig`, main.py 405-445).

The stdlib call `string.Template(tmpl).substitute(mapping)` is modelled as a
one-pass scan over the template characters: a doubled dollar sign is an
escaped dollar, a dollar followed by an identifier (bare or brace-delimited)
is replaced by the mapped value (a missing key raises `KeyError`), and a
malformed placeholder raises `ValueError`.  The output is accumulated in
reverse.
-/

def isIdentStart (c : Char) : Bool := c.isAlpha || c = '_'

def isIdentChar (c : Char) : Bool := c.isAlphanum || c = '_'

/-- Scanner state for the template substitution pass. -/
inductive SubMode where
  | norm
  | dollar
  | ident (acc : List Char)
  | braced (acc : List Char)
  deriving DecidableEq, Repr

def invalidPlaceholder : String := "ValueError: Invalid placeholder in string"

/-- One step of the template scan; the first component of the state is the
reversed output accumulated so far. -/
def subStep (m : List (String × String)) :
    List Char × SubMode → Char → Except String (List Char × SubMode)
  | (out, .norm), c =>
    if c = '$' then .ok (out, .dollar) else .ok (c :: out, .norm)
  | (out, .dollar), c =>
    if c = '$' then .ok ('$' :: out, .norm)
    else if c = '\x7b' then .ok (out, .braced [])
    else if isIdentStart c then .ok (out, .ident [c])
    else .error invalidPlaceholder
  | (out, .ident acc), c =>
    if isIdentChar c then .ok (out, .ident (c :: acc))
    else
      match dictGet m (String.mk acc.reverse) with
      | none => .error ("KeyError: " ++ String.mk acc.reverse)
      | some v =>
        if c = '$' then .ok (v.data.reverse ++ out, .dollar)
        else .ok (c :: (v.data.reverse ++ out), .norm)
  | (out, .braced acc), c =>
    if c = '\x7d' then
      match acc.reverse with
      | [] => .error invalidPlaceholder
      | c0 :: rest =>
        if isIdentStart c0 && rest.all isIdentChar then
          match dictGet m (String.mk (c0 :: rest)) with
          | none => .error ("KeyError: " ++ String.mk (c0 :: rest))
          | some v => .ok (v.data.reverse ++ out, .norm)
        else .error invalidPlaceholder
    else .ok (out, .braced (c :: acc))

/-- Finalization of the template scan at end of input. -/
def subFinish (m : List (String × String)) :
    List Char × SubMode → Except String (List Char)
  | (out, .norm) => .ok out
  | (out, .ident acc) =>
    match dictGet m (String.mk acc.reverse) with
    | none => .error ("KeyError: " ++ String.mk acc.reverse)
    | some v => .ok (v.data.reverse ++ out)
  | (_, .dollar) => .error invalidPlaceholder
  | (_, .braced _) => .error invalidPlaceholder

/-- Model of `string.Template(tmpl).substitute(m)`. -/
def templateSubstitute (tmpl : String) (m : List (String × String)) :
    Except String String := do
  let st ← tmpl.data.foldlM (subStep m) ([], SubMode.norm)
  let out ← subFinish m st
  return String.mk out.reverse

/-- External behaviours a monitoring run depends on: the contents of
`kubeconfig_template.yaml` (or a `FileNotFoundError`), whether the write to
`/tmp/kubeconfig.yaml` succeeds, whether `config.load_kube_config` succeeds,
the Kubernetes API behaviours, and whether the outbound POST succeeds.
Here `none`/`ok` means success; a `String` carries the exception detail. -/
structure World where
  template : Except String String
  writeResult : Option String
  loadResult : Option String
  cluster : Cluster
  postResult : Option String

/-- Embedding of `generate_kubeconfig` (main.py 405-445): read the fixed
template, render it with the six credential values, write the result to the
fixed path `/tmp/kubeconfig.yaml`, export the process-wide `KUBECONFIG`
environment variable, and return the path.  A missing template file maps to
`HTTPException(500, "kubeconfig_template.yaml not found.")`; a failed write
maps to `HTTPException(500, "Failed to write kubeconfig: ...")`; a
substitution error propagates uncaught. -/
def generate_kubeconfig (w : World)
    (api_server_ip api_server_port ca_cert service_account_token
      cluster_name user_name : String) : List Effect × Except String String :=
  match w.template with
  | .error _ => ([], .error "kubeconfig_template.yaml not found.")
  | .ok tmpl =>
    match templateSubstitute tmpl
        [("cluster_name", cluster_name), ("api_server_ip", api_server_ip),
         ("api_server_port", api_server_port), ("ca_cert", ca_cert),
         ("user_name", user_name),
         ("service_account_token", service_account_token)] with
    | .error e => ([], .error e)
    | .ok kubeconfig_content =>
      match w.writeResult with
      | some e => ([], .error ("Failed to write kubeconfig: " ++ e))
      | none =>
        ([Effect.writeFile "/tmp/kubeconfig.yaml" kubeconfig_content,
          Effect.setEnv "KUBECONFIG" "/tmp/kubeconfig.yaml"],
         .ok "/tmp/kubeconfig.yaml")

/-- A cluster whose calls all succeed on an empty namespace. -/
def benignCluster : Cluster :=
  { listPods := .ok [], readLog := fun _ => .ok "" }

/-- A world whose external calls all succeed (placeholder-free template). -/
def benignWorld : World :=
  { template := .ok "apiVersion: v1", writeResult := none, loadResult := none,
    cluster := benignCluster, postResult := none }

/-- Python truthiness of `settings.get(...)`: `None` and `""` are falsy. -/
def falsyOpt : Option String → Bool
  | none => true
  | some s => decide (s = "")

def missingSettingsDetail : String :=
  "Missing required settings: api_server_ip, ca_cert, or service_account_token"

/-- Validation test `if not api_server_ip or not ca_cert or not
service_account_token` (main.py 495). -/
def missingRequired (settings : List (String × String)) : Bool :=
  falsyOpt (dictGet settings "api_server_ip") ||
    falsyOpt (dictGet settings "ca_cert") ||
    falsyOpt (dictGet settings "service_account_token")

/-- The Telex message (main.py 520-527): a newline-join of per-report blocks
`"Pod: {pod_name}, Namespace: {namespace}\n" + "\n".join(logs)` when there
are reports, else the fixed no-errors sentence. -/
def telexMessage (error_reports : List ErrorReport) : String :=
  if error_reports.isEmpty then "No errors found in Kubernetes logs."
  else String.intercalate "\n" (error_reports.map (fun report =>
    "Pod: " ++ report.pod_name ++ ", Namespace: " ++ report.«namespace» ++ "\n" ++
      String.intercalate "\n" report.logs))

/-- The Telex webhook body (main.py 530-535). -/
def telexData (error_reports : List ErrorReport) : TelexData :=
  { message := telexMessage error_reports
    username := "K8s Health Monitor"
    event_name := "K8s Error Report"
    status := if error_reports.isEmpty then "success" else "error" }

/-- Embedding of `monitor_task` (main.py 480-544): flatten the settings,
validate the three required values, generate the kubeconfig, load it, fetch
the error reports, and POST the Telex body to `return_url`.  The result is
the ordered trace of performed effects together with `none` on success or
the detail of the exception that ended the run (the outer handler at
main.py 542-544 logs it and re-raises `HTTPException(500, str(e))`). -/
def monitor_task (w : World) (payload : MonitorPayload) :
    List Effect × Option String :=
  let settings := flattenSettings payload.settings
  if missingRequired settings then
    ([], some missingSettingsDetail)
  else
    match generate_kubeconfig w
        ((dictGet settings "api_server_ip").getD "")
        ((dictGet settings "api_server_port").getD "6443")
        ((dictGet settings "ca_cert").getD "")
        ((dictGet settings "service_account_token").getD "")
        ((dictGet settings "cluster_name").getD "kubernetes")
        ((dictGet settings "user_name").getD "k8s-monitor") with
    | (fx, .error e) => (fx, some e)
    | (fx, .ok kubeconfig_path) =>
      match w.loadResult with
      | some e =>
        (fx ++ [Effect.loadKube kubeconfig_path],
         some ("Failed to load kubeconfig: " ++ e))
      | none =>
        match fetch_error_logs w.cluster
            ((dictGet settings "namespace").getD "default") with
        | (fx2, .error e) =>
          (fx ++ [Effect.loadKube kubeconfig_path] ++ fx2, some e)
        | (fx2, .ok error_reports) =>
          let fx3 := fx ++ [Effect.loadKube kubeconfig_path] ++ fx2 ++
            [Effect.post payload.return_url (telexData error_reports)]
          match w.postResult with
          | some e => (fx3, some e)
          | none => (fx3, none)

/-- HTTP response of the tick endpoint: status code and a flat JSON body. -/
structure TickResponse where
  status_code : Nat
  body : List (String × String)
  deriving DecidableEq, Repr

/-- The `POST /api/tick` handler (main.py 547-550): schedule
`monitor_task(payload)` as a background task and immediately return 202 with
body `{"status": "accepted"}`.  The payload handed to the scheduled
background task is returned as the second component. -/
def monitor (payload : MonitorPayload) : TickResponse × MonitorPayload :=
  ({ status_code := 202, body := [("status", "accepted")] }, payload)

/-- A payload supplying the three validated settings and nothing else. -/
def samplePayload : MonitorPayload :=
  { channel_id := "ch", return_url := "http://cb.example",
    settings :=
      [{ label := "api_server_ip", type := "text", required := true,
         default := "10.0.0.1" },
       { label := "ca_cert", type := "text", required := true,
         default := "Q0E=" },
       { label := "service_account_token", type := "text", required := true,
         default := "tok" }] }

/-- A world whose pod-listing call fails with an `ApiException`. -/
def unreachableWorld : World :=
  { template := .ok "apiVersion: v1", writeResult := none, loadResult := none,
    cluster := { listPods := .error "connection refused",
                 readLog := fun _ => .ok "" },
    postResult := none }

/-! Section 2: theorems. -/

theorem dictGet_dictInsert (k v : String) :
    ∀ (m : List (String × String)) (l : String),
      dictGet (dictInsert m k v) l = if l = k then some v else dictGet m l := by
  intro m
  induction m with
  | nil =>
    intro l
    by_cases hl : l = k
    · subst hl; simp [dictGet, dictInsert]
    · simp only [dictGet, dictInsert, if_neg hl, if_neg (fun h : k = l => hl h.symm)]
  | cons p m ih =>
    intro l
    by_cases hp : p.1 = k
    · simp only [dictInsert, if_pos hp]
      by_cases hl : l = k
      · subst hl; simp [dictGet]
      · have hkl : ¬k = l := fun h => hl h.symm
        have hpl : ¬p.1 = l := fun h => hkl (hp ▸ h)
        simp [dictGet, hkl, hl, hpl]
    · simp only [dictInsert, if_neg hp]
      by_cases hl : l = k
      · subst hl
        have hpl : ¬p.1 = l := hp
        simp [dictGet, hpl, ih]
      · by_cases hpl : p.1 = l <;> simp [dictGet, hpl, ih, hl]

theorem flattenSettings_get_aux (l : String) :
    ∀ (ss : List Setting) (m : List (String × String)),
      dictGet (ss.foldl (fun settings s => dictInsert settings s.label s.default) m) l =
        ss.foldl (fun acc s => if s.label = l then some s.default else acc) (dictGet m l) := by
  intro ss
  induction ss with
  | nil => intro m; rfl
  | cons s ss ih =>
    intro m
    simp only [List.foldl_cons]
    rw [ih, dictGet_dictInsert]
    by_cases h : s.label = l
    · simp [h]
    · rw [if_neg (fun h2 : l = s.label => h h2.symm), if_neg h]

/-- C9: the flattened settings dict maps each label to the default of the
**last** setting in the list carrying that label (later duplicates overwrite
earlier ones); absent labels map to `none`. -/
theorem c9_flatten_later_overwrites (ss : List Setting) (l : String) :
    dictGet (flattenSettings ss) l =
      ss.foldl (fun acc s => if s.label = l then some s.default else acc) none := by
  unfold flattenSettings
  rw [flattenSettings_get_aux]
  rfl

theorem mem_error_logs_iff (logs : List String) (l : String) :
    l ∈ error_logs_of logs ↔ l ∈ logs ∧ strContains (lowerStr l) "error" = true := by
  unfold error_logs_of
  simp [List.mem_filter]

/-- C3 counterexample: for the log sequence `["a", "b", "an error happened",
"c", "d"]` with a single keyword match at index 2, the claim requires the
emitted window to be the whole five-line excerpt `lines[0..5)` followed by a
separator line; the code instead emits exactly the matching line, with no
context lines and no separator. -/
theorem c3_counterexample :
    error_logs_of ["a", "b", "an error happened", "c", "d"] = ["an error happened"] ∧
      "a" ∉ error_logs_of ["a", "b", "an error happened", "c", "d"] := by
  decide

/-- C3 (amended): for every line at index i that matches, the extractor emits
that line itself — no surrounding context window and no separator: every
emitted line is itself a matching member of the input sequence. -/
theorem c3_matching_line_emitted_alone (logs : List String) (i : Nat)
    (h : i < logs.length)
    (hm : strContains (lowerStr (logs.get ⟨i, h⟩)) "error" = true) :
    logs.get ⟨i, h⟩ ∈ error_logs_of logs ∧
      ∀ l ∈ error_logs_of logs, l ∈ logs ∧ strContains (lowerStr l) "error" = true := by
  refine ⟨?_, ?_⟩
  · exact (mem_error_logs_iff logs _).2 ⟨logs.get_mem i h, hm⟩
  · intro l hl
    exact (mem_error_logs_iff logs l).1 hl

theorem c3_matching_line_emitted_alone_witness :
    (2 < (["a", "b", "an error happened", "c", "d"] : List String).length ∧
      strContains (lowerStr (["a", "b", "an error happened", "c", "d"].get ⟨2, by decide⟩))
        "error" = true) ∧
      (["a", "b", "an error happened", "c", "d"].get ⟨2, by decide⟩ ∈
          error_logs_of ["a", "b", "an error happened", "c", "d"] ∧
        ∀ l ∈ error_logs_of ["a", "b", "an error happened", "c", "d"],
          l ∈ ["a", "b", "an error happened", "c", "d"] ∧
            strContains (lowerStr l) "error" = true) :=
  ⟨⟨by decide, by decide⟩,
    c3_matching_line_emitted_alone ["a", "b", "an error happened", "c", "d"] 2
      (by decide) (by decide)⟩

/-- C4 counterexample: the line `"FATAL: disk full"` contains the keyword
`fatal` of the claimed set, so per the claim it must be classified as a match;
the code classifies it as a non-match (it only looks for the substring
`error`), and the extractor drops it. -/
theorem c4_counterexample :
    error_logs_of ["FATAL: disk full"] = [] ∧
      strContains (lowerStr "FATAL: disk full") "error" = false := by
  decide

/-- C4 (amended): a line is kept by the error extractor iff it contains,
case-insensitively, the single keyword `error` — not the larger set
{error, exception, fail, fatal, panic, critical}. -/
theorem c4_keyword_is_error_only (logs : List String) (l : String) :
    l ∈ error_logs_of logs ↔
      l ∈ logs ∧ ("error".toList <:+: (lowerStr l).toList) := by
  rw [mem_error_logs_iff]
  unfold strContains
  simp

theorem reports_foldl (c : Cluster) (ns : String) :
    ∀ (pods : List Pod) (acc : List ErrorReport),
      pods.foldl (fun error_reports pod =>
          match reportOf c ns pod with
          | none => error_reports
          | some r => error_reports ++ [r]) acc =
        acc ++ pods.filterMap (reportOf c ns) := by
  intro pods
  induction pods with
  | nil => intro acc; simp
  | cons pod pods ih =>
    intro acc
    simp only [List.foldl_cons, List.filterMap_cons]
    cases hr : reportOf c ns pod with
    | none => rw [ih]
    | some r => rw [ih]; simp

theorem fetch_error_logs_ok (c : Cluster) (ns : String) (pods : List Pod)
    (h : c.listPods = .ok pods) :
    fetch_error_logs c ns =
      (Effect.listPods ns :: pods.map (fun pod => Effect.readLog pod.name ns),
       .ok (pods.filterMap (reportOf c ns))) := by
  unfold fetch_error_logs
  rw [h]
  show (Effect.listPods ns :: pods.map (fun pod => Effect.readLog pod.name ns),
      Except.ok (pods.foldl (fun error_reports pod =>
        match reportOf c ns pod with
        | none => error_reports
        | some r => error_reports ++ [r]) [])) = _
  rw [reports_foldl]
  rfl

/-- C1 counterexample: three pods where pod 2's log read throws
`ApiException` with detail `"connection timed out"` (which does not contain
the substring `error`), and pods 1 and 3 have clean logs.  The claim requires
three `PodReport`-eligible entries with pod 2 flagged as a fetch error; the
code returns **no** entries at all — the failing pod's synthetic line
`"Failed to fetch logs: connection timed out"` is passed through the same
`"error"`-substring filter and dropped. -/
theorem c1_counterexample :
    (fetch_error_logs
      { listPods := .ok [⟨"pod1"⟩, ⟨"pod2"⟩, ⟨"pod3"⟩],
        readLog := fun n => if n = "pod2" then .error "connection timed out"
          else .ok "all good" }
      "default").2 = .ok [] := by
  decide

/-- C1 (amended): a per-pod log-read failure does not abort the scan — every
pod in the listing is still read (in listing order) and the overall fetch
still succeeds, each pod contributing independently; but the failing pod is
recorded only when its synthetic line `"Failed to fetch logs: {e}"` itself
contains `"error"` case-insensitively, and non-failing pods are recorded only
when they have matching lines, so there is no unconditional per-pod report. -/
theorem c1_per_pod_failure_does_not_abort (c : Cluster) (ns : String)
    (pods : List Pod) (h : c.listPods = .ok pods) :
    (fetch_error_logs c ns).1 =
        Effect.listPods ns :: pods.map (fun pod => Effect.readLog pod.name ns) ∧
      (fetch_error_logs c ns).2 = .ok (pods.filterMap (reportOf c ns)) ∧
      ∀ pod ∈ pods, ∀ e, c.readLog pod.name = .error e →
        reportOf c ns pod =
          (if strContains (lowerStr ("Failed to fetch logs: " ++ e)) "error" then
            some { pod_name := pod.name, «namespace» := ns,
                   logs := ["Failed to fetch logs: " ++ e] }
          else none) := by
  rw [fetch_error_logs_ok c ns pods h]
  refine ⟨rfl, rfl, ?_⟩
  intro pod _ e he
  unfold reportOf
  rw [he]
  unfold error_logs_of
  simp only [List.filter]
  cases hc : strContains (lowerStr ("Failed to fetch logs: " ++ e)) "error" <;>
    simp [hc]

theorem c1_per_pod_failure_does_not_abort_witness :
    (({ listPods := .ok [⟨"pod1"⟩, ⟨"pod2"⟩, ⟨"pod3"⟩],
        readLog := fun n => if n = "pod2" then .error "an error occurred"
          else .ok "ok line\nERROR: bad" } : Cluster).listPods =
        .ok [⟨"pod1"⟩, ⟨"pod2"⟩, ⟨"pod3"⟩]) ∧
      ((fetch_error_logs
          { listPods := .ok [⟨"pod1"⟩, ⟨"pod2"⟩, ⟨"pod3"⟩],
            readLog := fun n => if n = "pod2" then .error "an error occurred"
              else .ok "ok line\nERROR: bad" }
          "default").1 =
        Effect.listPods "default" ::
          ([⟨"pod1"⟩, ⟨"pod2"⟩, ⟨"pod3"⟩] : List Pod).map
            (fun pod => Effect.readLog pod.name "default") ∧
      (fetch_error_logs
          { listPods := .ok [⟨"pod1"⟩, ⟨"pod2"⟩, ⟨"pod3"⟩],
            readLog := fun n => if n = "pod2" then .error "an error occurred"
              else .ok "ok line\nERROR: bad" }
          "default").2 =
        .ok (([⟨"pod1"⟩, ⟨"pod2"⟩, ⟨"pod3"⟩] : List Pod).filterMap
          (reportOf
            { listPods := .ok [⟨"pod1"⟩, ⟨"pod2"⟩, ⟨"pod3"⟩],
              readLog := fun n => if n = "pod2" then .error "an error occurred"
                else .ok "ok line\nERROR: bad" }
            "default")) ∧
      ∀ pod ∈ ([⟨"pod1"⟩, ⟨"pod2"⟩, ⟨"pod3"⟩] : List Pod), ∀ e,
        ({ listPods := .ok [⟨"pod1"⟩, ⟨"pod2"⟩, ⟨"pod3"⟩],
           readLog := fun n => if n = "pod2" then .error "an error occurred"
             else .ok "ok line\nERROR: bad" } : Cluster).readLog pod.name = .error e →
          reportOf
              { listPods := .ok [⟨"pod1"⟩, ⟨"pod2"⟩, ⟨"pod3"⟩],
                readLog := fun n => if n = "pod2" then .error "an error occurred"
                  else .ok "ok line\nERROR: bad" }
              "default" pod =
            (if strContains (lowerStr ("Failed to fetch logs: " ++ e)) "error" then
              some { pod_name := pod.name, «namespace» := "default",
                     logs := ["Failed to fetch logs: " ++ e] }
            else none)) :=
  ⟨rfl,
    c1_per_pod_failure_does_not_abort
      { listPods := .ok [⟨"pod1"⟩, ⟨"pod2"⟩, ⟨"pod3"⟩],
        readLog := fun n => if n = "pod2" then .error "an error occurred"
          else .ok "ok line\nERROR: bad" }
      "default" [⟨"pod1"⟩, ⟨"pod2"⟩, ⟨"pod3"⟩] rfl⟩

theorem generate_kubeconfig_ok (w : World)
    (ip port ca tok cn un t content : String)
    (htmpl : w.template = .ok t)
    (hsub : templateSubstitute t
        [("cluster_name", cn), ("api_server_ip", ip), ("api_server_port", port),
         ("ca_cert", ca), ("user_name", un), ("service_account_token", tok)] =
      .ok content)
    (hwrite : w.writeResult = none) :
    generate_kubeconfig w ip port ca tok cn un =
      ([Effect.writeFile "/tmp/kubeconfig.yaml" content,
        Effect.setEnv "KUBECONFIG" "/tmp/kubeconfig.yaml"],
       .ok "/tmp/kubeconfig.yaml") := by
  simp [generate_kubeconfig, htmpl, hsub, hwrite]

/-- C2 counterexample: two concurrent monitoring tasks provisioning entirely
different credentials both materialize them at the **same** fixed path
`/tmp/kubeconfig.yaml` and both publish it through the **same** process-wide
`KUBECONFIG` environment variable — the credential file is neither
uniquely-named nor task-local, so two tasks share a credential file and a
process-wide credential pointer. -/
theorem c2_counterexample :
    generate_kubeconfig benignWorld "10.0.0.1" "6443" "caA" "tokenA"
        "clusterA" "userA" =
      ([Effect.writeFile "/tmp/kubeconfig.yaml" "apiVersion: v1",
        Effect.setEnv "KUBECONFIG" "/tmp/kubeconfig.yaml"],
       .ok "/tmp/kubeconfig.yaml") ∧
      generate_kubeconfig benignWorld "10.0.0.2" "6443" "caB" "tokenB"
          "clusterB" "userB" =
        ([Effect.writeFile "/tmp/kubeconfig.yaml" "apiVersion: v1",
          Effect.setEnv "KUBECONFIG" "/tmp/kubeconfig.yaml"],
         .ok "/tmp/kubeconfig.yaml") := by
  decide

/-- C2 (amended): credential provisioning is **not** task-isolated — for any
credential values whatsoever, `generate_kubeconfig` writes the rendered
credentials to the single fixed path `/tmp/kubeconfig.yaml` and sets the
process-wide `KUBECONFIG` environment variable to that path, so every
in-flight task shares the same credential file and the same ambient
credential pointer instead of receiving task-local credentials. -/
theorem c2_fixed_path_and_global_pointer (w : World)
    (ip port ca tok cn un t content : String)
    (htmpl : w.template = .ok t)
    (hsub : templateSubstitute t
        [("cluster_name", cn), ("api_server_ip", ip), ("api_server_port", port),
         ("ca_cert", ca), ("user_name", un), ("service_account_token", tok)] =
      .ok content)
    (hwrite : w.writeResult = none) :
    generate_kubeconfig w ip port ca tok cn un =
      ([Effect.writeFile "/tmp/kubeconfig.yaml" content,
        Effect.setEnv "KUBECONFIG" "/tmp/kubeconfig.yaml"],
       .ok "/tmp/kubeconfig.yaml") := by
  simp [generate_kubeconfig, htmpl, hsub, hwrite]

theorem c2_fixed_path_and_global_pointer_witness :
    (benignWorld.template = .ok "apiVersion: v1" ∧
      templateSubstitute "apiVersion: v1"
          [("cluster_name", "kubernetes"), ("api_server_ip", "10.0.0.1"),
           ("api_server_port", "6443"), ("ca_cert", "Q0E="),
           ("user_name", "k8s-monitor"), ("service_account_token", "tok")] =
        .ok "apiVersion: v1" ∧
      benignWorld.writeResult = none) ∧
      generate_kubeconfig benignWorld "10.0.0.1" "6443" "Q0E=" "tok"
          "kubernetes" "k8s-monitor" =
        ([Effect.writeFile "/tmp/kubeconfig.yaml" "apiVersion: v1",
          Effect.setEnv "KUBECONFIG" "/tmp/kubeconfig.yaml"],
         .ok "/tmp/kubeconfig.yaml") :=
  ⟨⟨rfl, by decide, rfl⟩,
    c2_fixed_path_and_global_pointer benignWorld "10.0.0.1" "6443" "Q0E=" "tok"
      "kubernetes" "k8s-monitor" "apiVersion: v1" "apiVersion: v1" rfl
      (by decide) rfl⟩

/-- C5 counterexample: a settings mapping that supplies `api_server_ip`,
`ca_cert` and `service_account_token` but is missing the required
`namespace` field (and `cluster_name`, `user_name`).  The claim requires
credential provisioning to fail naming the absent fields; the code does not
fail at all — the whole background run completes successfully, defaulting
the namespace. -/
theorem c5_counterexample :
    (monitor_task benignWorld samplePayload).2 = none := by
  decide

/-- C5 (amended): validation only covers `api_server_ip`, `ca_cert` and
`service_account_token` (missing namespace/cluster/user fields silently fall
back to defaults); whenever any of the three is empty or missing the run
fails immediately with one fixed message, which textually names all three
fields — in particular both `service_account_token` and `ca_cert` are named
when exactly those two are absent. -/
theorem c5_missing_required_fixed_message (w : World) (payload : MonitorPayload)
    (h : missingRequired (flattenSettings payload.settings) = true) :
    monitor_task w payload = ([], some missingSettingsDetail) ∧
      strContains missingSettingsDetail "service_account_token" = true ∧
      strContains missingSettingsDetail "ca_cert" = true ∧
      strContains missingSettingsDetail "api_server_ip" = true := by
  refine ⟨?_, by decide, by decide, by decide⟩
  simp [monitor_task, h]

theorem c5_missing_required_fixed_message_witness :
    (missingRequired (flattenSettings
        ({ channel_id := "ch", return_url := "http://cb.example",
           settings :=
             [{ label := "api_server_ip", type := "text", required := true,
                default := "10.0.0.1" }] } : MonitorPayload).settings) = true) ∧
      (monitor_task benignWorld
          { channel_id := "ch", return_url := "http://cb.example",
            settings :=
              [{ label := "api_server_ip", type := "text", required := true,
                 default := "10.0.0.1" }] } =
        ([], some missingSettingsDetail) ∧
      strContains missingSettingsDetail "service_account_token" = true ∧
      strContains missingSettingsDetail "ca_cert" = true ∧
      strContains missingSettingsDetail "api_server_ip" = true) :=
  ⟨by decide,
    c5_missing_required_fixed_message benignWorld
      { channel_id := "ch", return_url := "http://cb.example",
        settings :=
          [{ label := "api_server_ip", type := "text", required := true,
             default := "10.0.0.1" }] } (by decide)⟩

/-- C10: when the flattened settings lack `api_server_ip`, `ca_cert` or
`service_account_token`, the background run fails with the fixed validation
message having performed **no** external side effect: the effect trace is
empty — no kubeconfig file write, no `KUBECONFIG` environment update, and no
POST to `return_url`. -/
theorem c10_validation_failure_atomic (w : World) (payload : MonitorPayload)
    (h : missingRequired (flattenSettings payload.settings) = true) :
    monitor_task w payload = ([], some missingSettingsDetail) ∧
      (∀ path content, Effect.writeFile path content ∉ (monitor_task w payload).1) ∧
      (∀ var value, Effect.setEnv var value ∉ (monitor_task w payload).1) ∧
      (∀ url data, Effect.post url data ∉ (monitor_task w payload).1) := by
  have hm : monitor_task w payload = ([], some missingSettingsDetail) := by
    simp [monitor_task, h]
  rw [hm]
  simp

theorem c10_validation_failure_atomic_witness :
    (missingRequired (flattenSettings
        ({ channel_id := "ch", return_url := "http://cb.example",
           settings := [] } : MonitorPayload).settings) = true) ∧
      (monitor_task benignWorld
          { channel_id := "ch", return_url := "http://cb.example",
            settings := [] } =
        ([], some missingSettingsDetail) ∧
      (∀ path content, Effect.writeFile path content ∉
        (monitor_task benignWorld
          { channel_id := "ch", return_url := "http://cb.example",
            settings := [] }).1) ∧
      (∀ var value, Effect.setEnv var value ∉
        (monitor_task benignWorld
          { channel_id := "ch", return_url := "http://cb.example",
            settings := [] }).1) ∧
      (∀ url data, Effect.post url data ∉
        (monitor_task benignWorld
          { channel_id := "ch", return_url := "http://cb.example",
            settings := [] }).1)) :=
  ⟨by decide,
    c10_validation_failure_atomic benignWorld
      { channel_id := "ch", return_url := "http://cb.example", settings := [] }
      (by decide)⟩

/-- C8 counterexample: the 202 response of `POST /api/tick` carries only
`{"status": "accepted"}` — it contains **no** `task_id`, and there is no
task-status route in the application, so no returned identifier can be
queried later. -/
theorem c8_counterexample :
    dictGet (monitor { channel_id := "ch", return_url := "http://cb.example",
                       settings := [] }).1.body "task_id" = none := by
  decide

/-- C8 (amended): for every accepted `MonitorRequest`, `POST /api/tick`
returns 202 immediately with body exactly `{"status": "accepted"}` and
schedules the background run on that payload; no `task_id` is returned (and
the app exposes no task-status query). -/
theorem c8_tick_accepted_without_task_id (payload : MonitorPayload) :
    (monitor payload).1.status_code = 202 ∧
      dictGet (monitor payload).1.body "status" = some "accepted" ∧
      dictGet (monitor payload).1.body "task_id" = none ∧
      (monitor payload).2 = payload := by
  exact ⟨rfl, rfl, rfl, rfl⟩

/-- C6 counterexample: for the non-empty report list
`[{pod_name := "p", namespace := "n", logs := ["error"]}]` the claim requires
a one-line message stating the count of affected pods; the code produces
`"Pod: p, Namespace: n\nerror"`, which spans two lines (it contains a newline
character) and contains no digit at all, hence states no count. -/
theorem c6_counterexample :
    (telexData [{ pod_name := "p", «namespace» := "n", logs := ["error"] }]).message =
        "Pod: p, Namespace: n\nerror" ∧
      '\n' ∈ (telexData [{ pod_name := "p", «namespace» := "n",
                           logs := ["error"] }]).message.data ∧
      (∀ c ∈ (telexData [{ pod_name := "p", «namespace» := "n",
                           logs := ["error"] }]).message.data, c.isDigit = false) ∧
      (telexData [{ pod_name := "p", «namespace» := "n",
                    logs := ["error"] }]).status = "error" := by
  decide

/-- C6 (amended): the aggregated notification has status `"error"` iff the
report list is non-empty and `"success"` iff it is empty; its message is the
fixed sentence `"No errors found in Kubernetes logs."` when the list is
empty, and otherwise the newline-join of per-pod blocks (pod name, namespace
and the matching lines) — a possibly multi-line text that does not state an
affected-pod count. -/
theorem c6_summary_status_and_message (error_reports : List ErrorReport) :
    ((telexData error_reports).status = "error" ↔ error_reports ≠ []) ∧
      ((telexData error_reports).status = "success" ↔ error_reports = []) ∧
      (error_reports = [] →
        (telexData error_reports).message = "No errors found in Kubernetes logs.") ∧
      (∀ r rs, error_reports = r :: rs →
        (telexData error_reports).message =
          String.intercalate "\n" ((r :: rs).map (fun report =>
            "Pod: " ++ report.pod_name ++ ", Namespace: " ++ report.«namespace» ++
              "\n" ++ String.intercalate "\n" report.logs))) := by
  cases error_reports with
  | nil =>
    refine ⟨by simp [telexData], by simp [telexData], by simp [telexData, telexMessage], ?_⟩
    intro r rs h
    exact absurd h (by simp)
  | cons r rs =>
    refine ⟨by simp [telexData], by simp [telexData], by simp, ?_⟩
    intro r2 rs2 h
    rw [h]
    simp [telexData, telexMessage]

/-- C7: if the pod-listing call itself fails (once the run has validated its
settings, rendered and loaded the kubeconfig), the whole task aborts with the
listing failure `"Failed to fetch pod logs: ..."` (the code's rendering of a
cluster-unreachable error): no pod log is ever read, no report is aggregated
and no notification is posted — the run terminates as failed. -/
theorem c7_listing_failure_aborts_task (w : World) (payload : MonitorPayload)
    (t content e : String)
    (hmiss : missingRequired (flattenSettings payload.settings) = false)
    (htmpl : w.template = .ok t)
    (hsub : templateSubstitute t
        [("cluster_name",
           (dictGet (flattenSettings payload.settings) "cluster_name").getD "kubernetes"),
         ("api_server_ip",
           (dictGet (flattenSettings payload.settings) "api_server_ip").getD ""),
         ("api_server_port",
           (dictGet (flattenSettings payload.settings) "api_server_port").getD "6443"),
         ("ca_cert",
           (dictGet (flattenSettings payload.settings) "ca_cert").getD ""),
         ("user_name",
           (dictGet (flattenSettings payload.settings) "user_name").getD "k8s-monitor"),
         ("service_account_token",
           (dictGet (flattenSettings payload.settings) "service_account_token").getD "")] =
      .ok content)
    (hwrite : w.writeResult = none)
    (hload : w.loadResult = none)
    (hlist : w.cluster.listPods = .error e) :
    monitor_task w payload =
      ([Effect.writeFile "/tmp/kubeconfig.yaml" content,
        Effect.setEnv "KUBECONFIG" "/tmp/kubeconfig.yaml",
        Effect.loadKube "/tmp/kubeconfig.yaml",
        Effect.listPods
          ((dictGet (flattenSettings payload.settings) "namespace").getD "default")],
       some ("Failed to fetch pod logs: " ++ e)) ∧
      (∀ pn nn, Effect.readLog pn nn ∉ (monitor_task w payload).1) ∧
      (∀ url data, Effect.post url data ∉ (monitor_task w payload).1) := by
  have hgen := generate_kubeconfig_ok w _ _ _ _ _ _ _ _ htmpl hsub hwrite
  have hm : monitor_task w payload =
      ([Effect.writeFile "/tmp/kubeconfig.yaml" content,
        Effect.setEnv "KUBECONFIG" "/tmp/kubeconfig.yaml",
        Effect.loadKube "/tmp/kubeconfig.yaml",
        Effect.listPods
          ((dictGet (flattenSettings payload.settings) "namespace").getD "default")],
       some ("Failed to fetch pod logs: " ++ e)) := by
    simp [monitor_task, hmiss, hgen, hload, fetch_error_logs, hlist]
  rw [hm]
  exact ⟨rfl, fun pn nn => by simp, fun url data => by simp⟩

theorem c7_listing_failure_aborts_task_witness :
    (missingRequired (flattenSettings samplePayload.settings) = false ∧
      unreachableWorld.template = .ok "apiVersion: v1" ∧
      templateSubstitute "apiVersion: v1"
        [("cluster_name",
           (dictGet (flattenSettings samplePayload.settings) "cluster_name").getD "kubernetes"),
         ("api_server_ip",
           (dictGet (flattenSettings samplePayload.settings) "api_server_ip").getD ""),
         ("api_server_port",
           (dictGet (flattenSettings samplePayload.settings) "api_server_port").getD "6443"),
         ("ca_cert",
           (dictGet (flattenSettings samplePayload.settings) "ca_cert").getD ""),
         ("user_name",
           (dictGet (flattenSettings samplePayload.settings) "user_name").getD "k8s-monitor"),
         ("service_account_token",
           (dictGet (flattenSettings samplePayload.settings) "service_account_token").getD "")] =
        .ok "apiVersion: v1" ∧
      unreachableWorld.writeResult = none ∧
      unreachableWorld.loadResult = none ∧
      unreachableWorld.cluster.listPods = .error "connection refused") ∧
      (monitor_task unreachableWorld samplePayload =
        ([Effect.writeFile "/tmp/kubeconfig.yaml" "apiVersion: v1",
          Effect.setEnv "KUBECONFIG" "/tmp/kubeconfig.yaml",
          Effect.loadKube "/tmp/kubeconfig.yaml",
          Effect.listPods
            ((dictGet (flattenSettings samplePayload.settings) "namespace").getD "default")],
         some ("Failed to fetch pod logs: " ++ "connection refused")) ∧
      (∀ pn nn, Effect.readLog pn nn ∉ (monitor_task unreachableWorld samplePayload).1) ∧
      (∀ url data, Effect.post url data ∉ (monitor_task unreachableWorld samplePayload).1)) :=
  ⟨⟨by decide, rfl, by decide, rfl, rfl, rfl⟩,
    c7_listing_failure_aborts_task unreachableWorld samplePayload
      "apiVersion: v1" "apiVersion: v1" "connection refused"
      (by decide) rfl (by decide) rfl rfl rfl⟩

theorem c9_flatten_later_overwrites_witness :
    dictGet (flattenSettings
        [{ label := "a", type := "text", required := true, default := "1" },
         { label := "a", type := "text", required := true, default := "2" }]) "a" =
      ([{ label := "a", type := "text", required := true, default := "1" },
        { label := "a", type := "text", required := true, default := "2" }] :
          List Setting).foldl
        (fun acc s => if s.label = "a" then some s.default else acc) none :=
  c9_flatten_later_overwrites
    [{ label := "a", type := "text", required := true, default := "1" },
     { label := "a", type := "text", required := true, default := "2" }] "a"

theorem c4_keyword_is_error_only_witness :
    "FATAL: disk full" ∈ error_logs_of ["FATAL: disk full"] ↔
      "FATAL: disk full" ∈ (["FATAL: disk full"] : List String) ∧
        ("error".toList <:+: (lowerStr "FATAL: disk full").toList) :=
  c4_keyword_is_error_only ["FATAL: disk full"] "FATAL: disk full"

theorem c8_tick_accepted_without_task_id_witness :
    (monitor samplePayload).1.status_code = 202 ∧
      dictGet (monitor samplePayload).1.body "status" = some "accepted" ∧
      dictGet (monitor samplePayload).1.body "task_id" = none ∧
      (monitor samplePayload).2 = samplePayload :=
  c8_tick_accepted_without_task_id samplePayload

theorem c6_summary_status_and_message_witness :
    ((telexData [{ pod_name := "q", «namespace» := "m", logs := ["an error"] }]).status =
          "error" ↔
        ([{ pod_name := "q", «namespace» := "m", logs := ["an error"] }] :
          List ErrorReport) ≠ []) ∧
      ((telexData [{ pod_name := "q", «namespace» := "m", logs := ["an error"] }]).status =
          "success" ↔
        ([{ pod_name := "q", «namespace» := "m", logs := ["an error"] }] :
          List ErrorReport) = []) ∧
      (([{ pod_name := "q", «namespace» := "m", logs := ["an error"] }] :
          List ErrorReport) = [] →
        (telexData [{ pod_name := "q", «namespace» := "m", logs := ["an error"] }]).message =
          "No errors found in Kubernetes logs.") ∧
      (∀ r rs,
        ([{ pod_name := "q", «namespace» := "m", logs := ["an error"] }] :
          List ErrorReport) = r :: rs →
        (telexData [{ pod_name := "q", «namespace» := "m", logs := ["an error"] }]).message =
          String.intercalate "\n" ((r :: rs).map (fun report =>
            "Pod: " ++ report.pod_name ++ ", Namespace: " ++ report.«namespace» ++
              "\n" ++ String.intercalate "\n" report.logs))) :=
  c6_summary_status_and_message
    [{ pod_name := "q", «namespace» := "m", logs := ["an error"] }]

end K8sMonitor
